import Mathlib

/-!
Verification of the single-file medication-reminder utility (`med_reminder.py`)
against its natural-language specification.

The Python program is shallowly embedded:
* the persisted JSON log becomes an insertion-ordered association list,
  with `lookupA` and `updateA` mirroring Python dict containment, indexing
  and assignment;
* `load_log` is a function of an abstract file content (absent, corrupt, or
  parsed), returning `Except` because only `FileNotFoundError` is caught;
* dynamically-undefined attributes (`self.medicines` for an unknown slot key)
  are modelled as `Option`, and reading a missing one is `Except.error ()`;
* `run_reminder_cycle` becomes a fuel-indexed recursion producing the list of
  observable events (completion checks, alerts, GUI round results, waits) and
  a terminal outcome; the store returned by each `load_log` call of the run is
  supplied by an oracle `stores : Nat → LogStore`, and the result of each GUI
  round by `resp : Nat → Bool`, so that external writers and user behaviour
  are arbitrary.
-/

/-- A persisted log entry for one (day, slot) pair: the confirmed medicine
names (the `medicines` JSON field; `none` models a record where the field is
absent, which the code reads back via `.get('medicines', [])`), the
`time_taken` timestamp string, and the `reminder_count` at confirmation. -/
structure LogEntry where
  medicines : Option (List String)
  time_taken : String
  reminder_count : Nat
deriving DecidableEq

/-- The slot-key → entry mapping stored under one day key. -/
abbrev DaySlots := List (String × LogEntry)

/-- The whole persisted store: day key → slot mapping, an insertion-ordered
association list mirroring a JSON object / Python dict. -/
abbrev LogStore := List (String × DaySlots)

/-- Dict lookup: `k in d` / `d[k]` combined, returning `none` when absent. -/
def lookupA {β : Type} : List (String × β) → String → Option β
  | [], _ => none
  | (k', v) :: rest, k => if k' = k then some v else lookupA rest k

/-- Dict assignment `d[k] = v`: replaces the value at the first occurrence of
`k` keeping its position, appends when `k` is absent — exactly a Python dict
update in insertion order. -/
def updateA {β : Type} : List (String × β) → String → β → List (String × β)
  | [], k, v => [(k, v)]
  | (k', v') :: rest, k, v =>
    if k' = k then (k, v) :: rest else (k', v') :: updateA rest k v

/-- Number of bindings an association list holds for key `k`. -/
def countKey {β : Type} (l : List (String × β)) (k : String) : Nat :=
  l.countP (fun p => p.1 == k)

/-- Compound lookup of the entry at a (day, slot) pair. -/
def lookupEntry (log : LogStore) (day slot : String) : Option LogEntry :=
  match lookupA log day with
  | none => none
  | some d => lookupA d slot

/-- What `load_log` finds at `self.log_file`: the file may be missing, may
fail to parse as JSON, or may hold a parsed store. -/
inductive FileContent
  | absent
  | corrupt
  | valid (log : LogStore)

/-- `load_log`: `json.load(open(self.log_file))` with only `FileNotFoundError`
caught and mapped to the empty dict.  A parse failure on a corrupt file is not
caught: the exception propagates to the caller, modelled as `Except.error ()`. -/
def load_log : FileContent → Except Unit LogStore
  | FileContent.absent => Except.ok []
  | FileContent.corrupt => Except.error ()
  | FileContent.valid log => Except.ok log

/-- `save_log(taken_meds)`, after its internal re-load: ensure today's
sub-dict exists (`if today_key not in log: log[today_key] = {}`), then assign
`log[today_key][self.reminder_type]` the new medicines/time/count record.
The Python method starts from `self.load_log()`; here the loaded store is the
`log` argument. -/
def save_log (log : LogStore) (today slot : String) (taken_meds : List String)
    (time_taken : String) (reminder_count : Nat) : LogStore :=
  let day := (lookupA log today).getD []
  updateA log today (updateA day slot ⟨some taken_meds, time_taken, reminder_count⟩)

/-- `already_taken_today`: `today in log and slot in log[today] and
len(log[today][slot].get('medicines', [])) == len(self.medicines)`.
Python `and` short-circuits, so `self.medicines` is read only after both
containment tests succeed; for a slot key the constructor does not recognise
that attribute is undefined (`none` here) and reading it raises
`AttributeError`, modelled as `Except.error ()`. -/
def already_taken_today (medicines : Option (List String)) (slot today : String)
    (log : LogStore) : Except Unit Bool :=
  match lookupA log today with
  | none => Except.ok false
  | some day =>
    match lookupA day slot with
    | none => Except.ok false
    | some entry =>
      match medicines with
      | none => Except.error ()
      | some ms => Except.ok ((entry.medicines.getD []).length == ms.length)

/-- The completion test applied to the optional entry found at (today, slot):
absent entry is incomplete, a present entry is complete iff its stored
`medicines` list (defaulting to `[]`) has the required length. -/
def entry_complete (ms : List String) (o : Option LogEntry) : Bool :=
  match o with
  | none => false
  | some entry => (entry.medicines.getD []).length == ms.length

/-- The `"morning"` branch of `__init__`. -/
def morning_medicines : List String :=
  ["Elvanse 20mg", "Escitalopram 5mg", "Dexamfetamine 5mg"]

/-- The `"afternoon"` branch of `__init__`. -/
def afternoon_medicines : List String :=
  ["Dexamfetamine 5mg (afternoon dose)"]

/-- `__init__`: `self.medicines` is assigned only in the two recognised
branches; any other slot key leaves the attribute undefined (`none`). -/
def init_medicines (reminder_type : String) : Option (List String) :=
  if reminder_type = "morning" then some morning_medicines
  else if reminder_type = "afternoon" then some afternoon_medicines
  else none

/-- `__init__`: `self.reminder_title`, likewise undefined off the two
recognised branches. -/
def init_reminder_title (reminder_type : String) : Option String :=
  if reminder_type = "morning" then some "🌅 MORNING MEDICATION TIME!"
  else if reminder_type = "afternoon" then some "🌆 AFTERNOON MEDICATION TIME!"
  else none

/-- Urgency and sound for the alert round at the top of a loop iteration, as
a function of the current `self.reminder_count` (the 0-based attempt index):
count 0 → normal with no sound, count 1..2 → normal with sound, count ≥ 3 →
critical with sound. -/
def alert_policy (reminder_count : Nat) : String × Bool :=
  if reminder_count = 0 then ("normal", false)
  else if reminder_count < 3 then ("normal", true)
  else ("critical", true)

/-- The wait computed after `self.reminder_count += 1`, i.e. applied to the
already-incremented count: `< 3 → 300`, `< 6 → 180`, otherwise `60` seconds. -/
def wait_time (reminder_count : Nat) : Nat :=
  if reminder_count < 3 then 300
  else if reminder_count < 6 then 180
  else 60

/-- `self.max_reminders`. -/
def max_reminders : Nat := 10

/-- Result of one click of the "Taken All" button (`on_taken`): either every
required box was checked — the log is written and the dialog closes with
`completed = True` — or only a warning box is shown and the dialog stays up. -/
inductive TakenOutcome
  | logged (newLog : LogStore)
  | warned
deriving DecidableEq

/-- The `selected` list `on_taken` builds: the medicines whose checkbox is
ticked, in order. -/
def on_taken_selected (medicines : List String) (checked : List Bool) : List String :=
  ((medicines.zip checked).filter (fun p => p.2)).map (fun p => p.1)

/-- `on_taken`: when `len(selected) == len(self.medicines)`, `save_log
(selected)` runs and the dialog completes; otherwise only the "Incomplete"
warning is shown — no write, no completion, the dialog re-prompts in place. -/
def on_taken (medicines : List String) (checked : List Bool) (log : LogStore)
    (today slot time_taken : String) (reminder_count : Nat) : TakenOutcome :=
  let selected := on_taken_selected medicines checked
  if selected.length = medicines.length then
    TakenOutcome.logged (save_log log today slot selected time_taken reminder_count)
  else TakenOutcome.warned

/-- The store as left behind by one `on_taken` click: updated on the logged
branch, untouched on the warned branch. -/
def on_taken_store (medicines : List String) (checked : List Bool) (log : LogStore)
    (today slot time_taken : String) (reminder_count : Nat) : LogStore :=
  match on_taken medicines checked log today slot time_taken reminder_count with
  | TakenOutcome.logged l => l
  | TakenOutcome.warned => log

/-- Observable steps of one run of `run_reminder_cycle`. -/
inductive Event
  | check (complete : Bool)
  | alert (urgency : String) (soundPlayed : Bool)
  | gui (taken : Bool)
  | waitE (seconds : Nat)
deriving DecidableEq

/-- How a run of `run_reminder_cycle` ends. -/
inductive Outcome
  | alreadyTaken
  | takenMeanwhile
  | takenNow
  | exhausted
  | attrError (site : String)
deriving DecidableEq

/-- The `while self.reminder_count < self.max_reminders` loop.  `stores k` is
the store the k-th `load_log` of the run returns (load 0 is the pre-loop
check; each iteration re-loads fresh, so iteration at count `c` in an
uninterrupted run uses load `c + 1`), `resp c` abstracts what
`show_gui_reminder` returns at attempt index `c`, and `fuel` equals
`max_reminders - reminder_count`, so `fuel = 0` is loop exit ("Maximum
reminders reached"). -/
def run_loop (medicines : Option (List String)) (slot today : String)
    (stores : Nat → LogStore) (resp : Nat → Bool) :
    Nat → Nat → Nat → List Event × Outcome
  | _, 0, _ => ([], Outcome.exhausted)
  | reminder_count, fuel + 1, k =>
    match already_taken_today medicines slot today (stores k) with
    | Except.error _ => ([], Outcome.attrError "already_taken_today")
    | Except.ok true => ([Event.check true], Outcome.takenMeanwhile)
    | Except.ok false =>
      match medicines with
      | none => ([Event.check false], Outcome.attrError "show_desktop_notification")
      | some _ =>
        let pol := alert_policy reminder_count
        if resp reminder_count then
          ([Event.check false, Event.alert pol.1 pol.2, Event.gui true], Outcome.takenNow)
        else
          let rest := run_loop medicines slot today stores resp (reminder_count + 1) fuel (k + 1)
          (Event.check false :: Event.alert pol.1 pol.2 :: Event.gui false ::
            Event.waitE (wait_time (reminder_count + 1)) :: rest.1, rest.2)

/-- `run_reminder_cycle`: early return when already taken (load 0), else run
the loop from attempt index 0 with `max_reminders` iterations available;
in-loop checks use loads 1, 2, …. -/
def run_reminder_cycle (medicines : Option (List String)) (slot today : String)
    (stores : Nat → LogStore) (resp : Nat → Bool) : List Event × Outcome :=
  match already_taken_today medicines slot today (stores 0) with
  | Except.error _ => ([], Outcome.attrError "already_taken_today")
  | Except.ok true => ([Event.check true], Outcome.alreadyTaken)
  | Except.ok false =>
    let r := run_loop medicines slot today stores resp 0 max_reminders 1
    (Event.check false :: r.1, r.2)

/-- How many alert rounds a trace contains. -/
def countAlerts (es : List Event) : Nat :=
  es.countP (fun e => match e with | Event.alert _ _ => true | _ => false)

/-- The wait durations of a trace, in order. -/
def waitsOf (es : List Event) : List Nat :=
  es.filterMap (fun e => match e with | Event.waitE s => some s | _ => none)

/-- The notification urgencies of a trace, in order. -/
def urgenciesOf (es : List Event) : List String :=
  es.filterMap (fun e => match e with | Event.alert u _ => some u | _ => none)

/-- The sound flags of a trace, in order. -/
def soundsOf (es : List Event) : List Bool :=
  es.filterMap (fun e => match e with | Event.alert _ s => some s | _ => none)

/-- The event block of `fuel` consecutive snoozed iterations starting at
attempt index `c`: the shape `run_loop` produces when every completion check
is negative and every GUI round is snoozed. -/
def snoozeTrace : Nat → Nat → List Event
  | _, 0 => []
  | c, fuel + 1 =>
    Event.check false :: Event.alert (alert_policy c).1 (alert_policy c).2 ::
      Event.gui false :: Event.waitE (wait_time (c + 1)) :: snoozeTrace (c + 1) fuel

/-- The fully concrete demonstration run: morning slot, store empty at every
load (no prior log, no external writer), every GUI round snoozed. -/
def all_snooze_demo : List Event × Outcome :=
  run_reminder_cycle (some morning_medicines) "morning" "2026-10-12"
    (fun _ => []) (fun _ => false)

/-- A store in which the morning slot of 2026-10-12 is completely logged. -/
def complete_demo_store : LogStore :=
  save_log [] "2026-10-12" "morning" morning_medicines "2026-10-12T08:00:00" 0

theorem lookupA_updateA_self {β : Type} (l : List (String × β)) (k : String) (v : β) :
    lookupA (updateA l k v) k = some v := by
  induction l with
  | nil => simp [updateA, lookupA]
  | cons p rest ih =>
    obtain ⟨k', v'⟩ := p
    by_cases h : k' = k
    · simp [updateA, h, lookupA]
    · simp [updateA, h, lookupA, ih]

theorem lookupA_updateA_ne {β : Type} (l : List (String × β)) (k k' : String) (v : β)
    (h : k' ≠ k) : lookupA (updateA l k v) k' = lookupA l k' := by
  have h' : k ≠ k' := Ne.symm h
  induction l with
  | nil => simp [updateA, lookupA, h']
  | cons p rest ih =>
    obtain ⟨a, b⟩ := p
    by_cases ha : a = k
    · subst ha
      simp [updateA, lookupA, h']
    · simp [updateA, ha, lookupA, ih]

theorem countKey_updateA {β : Type} (l : List (String × β)) (k : String) (v : β) :
    countKey (updateA l k v) k = max (countKey l k) 1 := by
  induction l with
  | nil => simp [updateA, countKey]
  | cons p rest ih =>
    obtain ⟨a, b⟩ := p
    by_cases ha : a = k
    · subst ha
      simp [updateA, countKey, List.countP_cons]
    · simp only [updateA, if_neg ha, countKey, List.countP_cons] at *
      simp only [ha, beq_iff_eq, if_false, ih]
      omega

theorem already_taken_today_eq (ms : List String) (slot today : String) (log : LogStore) :
    already_taken_today (some ms) slot today log
      = Except.ok (entry_complete ms (lookupEntry log today slot)) := by
  cases hd : lookupA log today with
  | none => simp [already_taken_today, lookupEntry, entry_complete, hd]
  | some day =>
    cases hs : lookupA day slot with
    | none => simp [already_taken_today, lookupEntry, entry_complete, hd, hs]
    | some entry => simp [already_taken_today, lookupEntry, entry_complete, hd, hs]

theorem lookupEntry_save_log_self (log : LogStore) (d s : String) (taken : List String)
    (tm : String) (c : Nat) :
    lookupEntry (save_log log d s taken tm c) d s = some ⟨some taken, tm, c⟩ := by
  simp [save_log, lookupEntry, lookupA_updateA_self]

theorem lookupEntry_save_log_ne (log : LogStore) (d s d' s' : String) (taken : List String)
    (tm : String) (c : Nat) (h : d' ≠ d ∨ s' ≠ s) :
    lookupEntry (save_log log d s taken tm c) d' s' = lookupEntry log d' s' := by
  rcases h with hd | hs
  · simp [save_log, lookupEntry, lookupA_updateA_ne _ _ _ _ hd]
  · by_cases hd : d' = d
    · subst hd
      simp only [save_log, lookupEntry, lookupA_updateA_self]
      rw [lookupA_updateA_ne _ _ _ _ hs]
      cases hl : lookupA log d' with
      | none => simp [lookupA]
      | some day => simp
    · simp [save_log, lookupEntry, lookupA_updateA_ne _ _ _ _ hd]

theorem on_taken_selected_length (ms : List String) (checked : List Bool)
    (h : checked.length = ms.length) :
    (on_taken_selected ms checked).length = checked.count true := by
  induction ms generalizing checked with
  | nil =>
    cases checked with
    | nil => simp [on_taken_selected]
    | cons b bs => simp at h
  | cons m rest ih =>
    cases checked with
    | nil => simp at h
    | cons b bs =>
      have hb : bs.length = rest.length := by simpa using h
      have hrec := ih bs hb
      cases b with
      | false => simpa [on_taken_selected, List.count_cons] using hrec
      | true => simpa [on_taken_selected, List.count_cons] using hrec

/-- C2, counterexample: the code does not treat a corrupt log file like an
absent one.  `load_log` on a corrupt file propagates the parse error
(`Except.error ()`), which differs from the empty-store fallback it returns
for an absent file, refuting the claimed shared empty-state fallback. -/
theorem load_corrupt_cex :
    load_log FileContent.corrupt = Except.error ()
    ∧ load_log FileContent.corrupt ≠ load_log FileContent.absent :=
  ⟨rfl, by simp [load_log]⟩

/-- C2, amended: `load_log` returns the empty mapping when the file is
absent (not an error), returns a parsed store unchanged, but surfaces an
uncaught error on a corrupt file — absent and corrupt are NOT conflated,
since only `FileNotFoundError` is caught. -/
theorem load_log_amended :
    load_log FileContent.absent = Except.ok ([] : LogStore)
    ∧ load_log FileContent.corrupt = Except.error ()
    ∧ ∀ log : LogStore, load_log (FileContent.valid log) = Except.ok log :=
  ⟨rfl, rfl, fun _ => rfl⟩

/-- C8: the wait interval the cycle produces for attempt index `i` (the code
computes `wait_time` at the already-incremented count `i + 1`) is
monotonically non-increasing in the attempt index, over the whole range of
attempt indices `0 ≤ i ≤ j < max_reminders`. -/
theorem wait_time_monotone (i j : Nat) (hij : i ≤ j) (_hj : j < max_reminders) :
    wait_time (j + 1) ≤ wait_time (i + 1) := by
  unfold wait_time
  split_ifs <;> omega

/-- Witness for `wait_time_monotone` at `i = 0`, `j = 5`. -/
theorem wait_time_monotone_witness : wait_time (5 + 1) ≤ wait_time (0 + 1) :=
  wait_time_monotone 0 5 (by omega) (by decide)

/-- C5: a confirmation attempt with strictly fewer checked items than the
slot requires is never accepted: `on_taken` takes the warning branch — no
`save_log`, no completion signal, the dialog re-prompts in place — and the
log store is left untouched. -/
theorem incomplete_confirmation_warns (ms : List String) (checked : List Bool)
    (log : LogStore) (today slot tm : String) (c : Nat)
    (hlen : checked.length = ms.length)
    (hlt : checked.count true < ms.length) :
    on_taken ms checked log today slot tm c = TakenOutcome.warned
    ∧ on_taken_store ms checked log today slot tm c = log := by
  have hsel := on_taken_selected_length ms checked hlen
  have hne : ¬ (on_taken_selected ms checked).length = ms.length := by omega
  refine ⟨?_, ?_⟩
  · simp [on_taken, hne]
  · simp [on_taken_store, on_taken, hne]

/-- Witness for `incomplete_confirmation_warns`: two of the three required
morning medicines checked is rejected with a warning. -/
theorem incomplete_confirmation_warns_witness :
    on_taken morning_medicines [true, true, false] [] "2026-10-12" "morning"
      "2026-10-12T08:00:00" 0 = TakenOutcome.warned :=
  (incomplete_confirmation_warns morning_medicines [true, true, false] [] "2026-10-12"
    "morning" "2026-10-12T08:00:00" 0 (by decide) (by decide)).1

/-- C10: completion is judged solely by the length of the stored `medicines`
list — any stored entry is complete exactly when that list's length (with the
absent field read as `[]`) equals the slot's required count, regardless of
which names it holds; and an entry without the field is never complete for a
slot requiring at least one item. -/
theorem completion_by_length_only (ms : List String) (slot today : String)
    (log : LogStore) (day : DaySlots) (entry : LogEntry)
    (hd : lookupA log today = some day) (hs : lookupA day slot = some entry) :
    (already_taken_today (some ms) slot today log = Except.ok true
      ↔ (entry.medicines.getD []).length = ms.length)
    ∧ (entry.medicines = none → 1 ≤ ms.length →
      already_taken_today (some ms) slot today log = Except.ok false) := by
  have he : lookupEntry log today slot = some entry := by
    simp [lookupEntry, hd, hs]
  constructor
  · rw [already_taken_today_eq, he]
    simp [entry_complete]
  · intro hnone hlen
    rw [already_taken_today_eq, he]
    simp [entry_complete, hnone, beq_eq_false_iff_ne]
    omega

/-- Witness for `completion_by_length_only`: an entry holding three wrong
names still counts the morning slot as complete. -/
theorem completion_by_length_only_witness :
    already_taken_today (some morning_medicines) "morning" "2026-10-12"
      [("2026-10-12", [("morning", ⟨some ["a", "b", "c"], "", 0⟩)])] = Except.ok true :=
  ((completion_by_length_only morning_medicines "morning" "2026-10-12"
      [("2026-10-12", [("morning", ⟨some ["a", "b", "c"], "", 0⟩)])]
      [("morning", ⟨some ["a", "b", "c"], "", 0⟩)] ⟨some ["a", "b", "c"], "", 0⟩
      (by decide) (by decide)).1).mpr rfl

/-- C3: after `save_log` records (day, slot) with a confirmed list of the
required length, `already_taken_today` is true; with a list of any other
length it is false; it is false when no entry exists for (day, slot), and
false for any other day key (such as the next day) after recording on an
empty store; in general it is true exactly when an entry for (day, slot)
exists whose stored list length equals the required count. -/
theorem record_then_complete (ms taken : List String) (slot today otherDay : String)
    (log : LogStore) (tm : String) (c : Nat) :
    (taken.length = ms.length →
      already_taken_today (some ms) slot today (save_log log today slot taken tm c)
        = Except.ok true)
    ∧ (taken.length ≠ ms.length →
      already_taken_today (some ms) slot today (save_log log today slot taken tm c)
        = Except.ok false)
    ∧ (lookupEntry log today slot = none →
      already_taken_today (some ms) slot today log = Except.ok false)
    ∧ (otherDay ≠ today →
      already_taken_today (some ms) slot otherDay (save_log [] today slot taken tm c)
        = Except.ok false)
    ∧ (already_taken_today (some ms) slot today log = Except.ok true
      ↔ ∃ entry, lookupEntry log today slot = some entry
          ∧ (entry.medicines.getD []).length = ms.length) := by
  refine ⟨?_, ?_, ?_, ?_, ?_⟩
  · intro h
    rw [already_taken_today_eq, lookupEntry_save_log_self]
    simp [entry_complete, h]
  · intro h
    rw [already_taken_today_eq, lookupEntry_save_log_self]
    simp [entry_complete, beq_eq_false_iff_ne, h]
  · intro h
    rw [already_taken_today_eq, h]
    rfl
  · intro h
    rw [already_taken_today_eq, lookupEntry_save_log_ne _ _ _ _ _ _ _ _ (Or.inl h)]
    rfl
  · rw [already_taken_today_eq]
    cases he : lookupEntry log today slot with
    | none => simp [entry_complete]
    | some entry => simp [entry_complete]

/-- Witness for `record_then_complete`: recording the full morning list on an
empty store makes the same day complete. -/
theorem record_then_complete_witness :
    already_taken_today (some morning_medicines) "morning" "2026-10-12"
      (save_log [] "2026-10-12" "morning" morning_medicines "2026-10-12T08:00:00" 0)
      = Except.ok true :=
  (record_then_complete morning_medicines morning_medicines "morning" "2026-10-12"
    "2026-10-13" [] "2026-10-12T08:00:00" 0).1 rfl

/-- C6: recording twice for the same (day, slot) overwrites the single
existing entry rather than duplicating it — the day holds exactly one binding
for the slot, carrying the second record — and each `save_log` call leaves
the entry of every other (day, slot) pair unchanged. -/
theorem record_overwrite_and_frame (log : LogStore) (today slot d' s' : String)
    (t1 t2 : List String) (tm1 tm2 : String) (c1 c2 : Nat)
    (hdup : countKey ((lookupA log today).getD []) slot ≤ 1)
    (hne : d' ≠ today ∨ s' ≠ slot) :
    lookupEntry (save_log (save_log log today slot t1 tm1 c1) today slot t2 tm2 c2)
        today slot = some ⟨some t2, tm2, c2⟩
    ∧ countKey ((lookupA (save_log (save_log log today slot t1 tm1 c1) today slot t2 tm2 c2)
        today).getD []) slot = 1
    ∧ lookupEntry (save_log log today slot t1 tm1 c1) d' s' = lookupEntry log d' s'
    ∧ lookupEntry (save_log (save_log log today slot t1 tm1 c1) today slot t2 tm2 c2) d' s'
        = lookupEntry log d' s' := by
  refine ⟨lookupEntry_save_log_self _ _ _ _ _ _, ?_,
    lookupEntry_save_log_ne _ _ _ _ _ _ _ _ hne, ?_⟩
  · simp only [save_log, lookupA_updateA_self, Option.getD_some]
    rw [countKey_updateA, countKey_updateA]
    omega
  · rw [lookupEntry_save_log_ne _ _ _ _ _ _ _ _ hne,
      lookupEntry_save_log_ne _ _ _ _ _ _ _ _ hne]

/-- Witness for `record_overwrite_and_frame`: recording twice on an empty
store leaves the second record at the slot. -/
theorem record_overwrite_and_frame_witness :
    lookupEntry (save_log (save_log [] "2026-10-12" "morning" ["x"] "t1" 0)
        "2026-10-12" "morning" ["y", "z"] "t2" 1) "2026-10-12" "morning"
      = some ⟨some ["y", "z"], "t2", 1⟩ :=
  (record_overwrite_and_frame [] "2026-10-12" "morning" "2026-10-13" "morning"
    ["x"] ["y", "z"] "t1" "t2" 0 1 (by decide) (Or.inl (by decide))).1

theorem run_loop_snooze (ms : List String) (slot today : String)
    (stores : Nat → LogStore) (resp : Nat → Bool)
    (hinc : ∀ k, already_taken_today (some ms) slot today (stores k) = Except.ok false)
    (hsnooze : ∀ c, resp c = false) :
    ∀ fuel c k, run_loop (some ms) slot today stores resp c fuel k
      = (snoozeTrace c fuel, Outcome.exhausted) := by
  intro fuel
  induction fuel with
  | zero => intro c k; rfl
  | succ n ih =>
    intro c k
    simp [run_loop, hinc k, hsnooze c, snoozeTrace, ih (c + 1) (k + 1)]

theorem countAlerts_cons_check (b : Bool) (es : List Event) :
    countAlerts (Event.check b :: es) = countAlerts es := by
  simp [countAlerts, List.countP_cons]

theorem run_loop_alert_fresh (ms : List String) (slot today : String)
    (stores : Nat → LogStore) (resp : Nat → Bool) :
    ∀ fuel c k i,
      i < countAlerts (run_loop (some ms) slot today stores resp c fuel k).1 →
      already_taken_today (some ms) slot today (stores (k + i)) = Except.ok false := by
  intro fuel
  induction fuel with
  | zero =>
    intro c k i hi
    simp [run_loop, countAlerts] at hi
  | succ n ih =>
    intro c k i hi
    simp only [run_loop, already_taken_today_eq] at hi
    cases hb : entry_complete ms (lookupEntry (stores k) today slot) with
    | true =>
      rw [hb] at hi
      simp [countAlerts, List.countP_cons] at hi
    | false =>
      rw [hb] at hi
      cases i with
      | zero =>
        show already_taken_today (some ms) slot today (stores k) = Except.ok false
        rw [already_taken_today_eq, hb]
      | succ j =>
        by_cases hr : resp c
        · simp [hr, countAlerts, List.countP_cons] at hi
        · simp only [hr, if_false, Bool.false_eq_true] at hi
          have hj : j < countAlerts
              (run_loop (some ms) slot today stores resp (c + 1) n (k + 1)).1 := by
            simp [countAlerts, List.countP_cons] at hi ⊢
            omega
          have hrec := ih (c + 1) (k + 1) j hj
          have harith : k + 1 + j = k + (j + 1) := by omega
          rwa [harith] at hrec

/-- C1, counterexample: in the fully concrete all-snooze run the wait
following attempt index 2 is 180 s, so the first four waits are
[300, 300, 180, 180] and not the [300, 300, 300, 180] the claimed escalation
table predicts — the code computes the wait from the already-incremented
count, which shifts the wait breakpoints one attempt earlier. -/
theorem escalation_wait_cex :
    (waitsOf all_snooze_demo.1).take 4 = [300, 300, 180, 180]
    ∧ ([300, 300, 180, 180] : List Nat) ≠ [300, 300, 300, 180] :=
  ⟨rfl, by decide⟩

/-- C1, amended: urgency and sound follow the claimed table exactly
(attempt 0 → normal, no sound; 1 ≤ i < 3 → normal with sound; i ≥ 3 →
critical with sound), but the wait column is shifted one attempt earlier
than claimed: the wait following attempt i is 300 s for i < 2, 180 s for
2 ≤ i < 5 and 60 s for i ≥ 5; hence attempts 0,1,2,3 yield urgencies
[normal, normal, normal, critical], sound flags [false, true, true, true]
and waits [300, 300, 180, 180]. -/
theorem escalation_table_amended :
    (∀ i : Nat,
      (i = 0 → alert_policy i = ("normal", false))
      ∧ (1 ≤ i → i < 3 → alert_policy i = ("normal", true))
      ∧ (3 ≤ i → alert_policy i = ("critical", true))
      ∧ (i < 2 → wait_time (i + 1) = 300)
      ∧ (2 ≤ i → i < 5 → wait_time (i + 1) = 180)
      ∧ (5 ≤ i → wait_time (i + 1) = 60))
    ∧ (urgenciesOf all_snooze_demo.1).take 4 = ["normal", "normal", "normal", "critical"]
    ∧ (soundsOf all_snooze_demo.1).take 4 = [false, true, true, true]
    ∧ (waitsOf all_snooze_demo.1).take 4 = [300, 300, 180, 180] := by
  refine ⟨fun i => ⟨?_, ?_, ?_, ?_, ?_, ?_⟩, by rfl, by rfl, by rfl⟩
  · intro h
    subst h
    rfl
  · intro h1 h2
    unfold alert_policy
    rw [if_neg (by omega), if_pos h2]
  · intro h
    unfold alert_policy
    rw [if_neg (by omega), if_neg (by omega)]
  · intro h
    unfold wait_time
    rw [if_pos (by omega)]
  · intro h1 h2
    unfold wait_time
    rw [if_neg (by omega), if_pos (by omega)]
  · intro h
    unfold wait_time
    rw [if_neg (by omega), if_neg (by omega)]

/-- Witness for `escalation_table_amended` at attempt index 3: critical with
sound, followed by a 180-second wait. -/
theorem escalation_table_amended_witness :
    alert_policy 3 = ("critical", true) ∧ wait_time (3 + 1) = 180 :=
  ⟨(escalation_table_amended.1 3).2.2.1 (by omega),
   (escalation_table_amended.1 3).2.2.2.2.1 (by omega) (by omega)⟩

/-- C4, counterexample: in the fully concrete all-snooze run the controller
does reach exhaustion after the ten snoozes, but the snooze that raises the
attempt index to the cap is still followed by a wait: the trace carries ten
wait events and ends with a 60-second wait, so the cycle transitions to
Waiting once more before stopping rather than directly to
Stopped (exhausted). -/
theorem snooze_cap_final_wait_cex :
    all_snooze_demo.2 = Outcome.exhausted
    ∧ (waitsOf all_snooze_demo.1).length = 10
    ∧ all_snooze_demo.1.getLast? = some (Event.waitE 60) :=
  ⟨rfl, rfl, rfl⟩

/-- C4, amended: when every check finds the slot incomplete and every GUI
round is snoozed, the controller performs exactly `max_reminders` alert
rounds and reaches exhaustion with no further alert; each snooze increments
the attempt index, but the cap is tested only at the top of the next
iteration, so the final snooze is still followed by one last 60-second wait
before Stopped (exhausted). -/
theorem snooze_cap_amended (ms : List String) (slot today : String)
    (stores : Nat → LogStore) (resp : Nat → Bool)
    (hinc : ∀ k, already_taken_today (some ms) slot today (stores k) = Except.ok false)
    (hsnooze : ∀ c, resp c = false) :
    run_reminder_cycle (some ms) slot today stores resp
      = (Event.check false :: snoozeTrace 0 max_reminders, Outcome.exhausted)
    ∧ countAlerts (snoozeTrace 0 max_reminders) = max_reminders
    ∧ (snoozeTrace 0 max_reminders).getLast? = some (Event.waitE 60) := by
  refine ⟨?_, by rfl, by rfl⟩
  unfold run_reminder_cycle
  rw [hinc 0, run_loop_snooze ms slot today stores resp hinc hsnooze max_reminders 0 1]

/-- Witness for `snooze_cap_amended`: the concrete all-snooze run on the
morning slot with an always-empty store. -/
theorem snooze_cap_amended_witness :
    run_reminder_cycle (some morning_medicines) "morning" "2026-10-12"
      (fun _ => []) (fun _ => false)
      = (Event.check false :: snoozeTrace 0 max_reminders, Outcome.exhausted) :=
  (snooze_cap_amended morning_medicines "morning" "2026-10-12" (fun _ => [])
    (fun _ => false) (fun _ => rfl) (fun _ => rfl)).1

/-- C7: every completion check of the cycle reads its own freshly loaded
store (`stores k` is what the k-th `load_log` returns): when load 0 already
shows the slot complete the run stops at once with no alert; the i-th alert
round can only happen after the check on fresh load i+1 — the one
immediately preceding that alert — found the slot incomplete; and whenever
some load m+1 shows the slot complete, at most m alert rounds are ever
performed.  No alert is delivered whose own preceding fresh check saw the
slot complete in the persisted store. -/
theorem fresh_check_before_alert (ms : List String) (slot today : String)
    (stores : Nat → LogStore) (resp : Nat → Bool) :
    (already_taken_today (some ms) slot today (stores 0) = Except.ok true →
      run_reminder_cycle (some ms) slot today stores resp
        = ([Event.check true], Outcome.alreadyTaken))
    ∧ (∀ i, i < countAlerts (run_reminder_cycle (some ms) slot today stores resp).1 →
      already_taken_today (some ms) slot today (stores (i + 1)) = Except.ok false)
    ∧ (∀ m, already_taken_today (some ms) slot today (stores (m + 1)) = Except.ok true →
      countAlerts (run_reminder_cycle (some ms) slot today stores resp).1 ≤ m) := by
  have hkey : ∀ i, i < countAlerts (run_reminder_cycle (some ms) slot today stores resp).1 →
      already_taken_today (some ms) slot today (stores (i + 1)) = Except.ok false := by
    intro i hi
    simp only [run_reminder_cycle, already_taken_today_eq] at hi
    cases hb : entry_complete ms (lookupEntry (stores 0) today slot) with
    | true =>
      rw [hb] at hi
      simp [countAlerts, List.countP_cons] at hi
    | false =>
      rw [hb] at hi
      change i < countAlerts (Event.check false ::
        (run_loop (some ms) slot today stores resp 0 max_reminders 1).1) at hi
      rw [countAlerts_cons_check] at hi
      have hrec := run_loop_alert_fresh ms slot today stores resp max_reminders 0 1 i hi
      have harith : 1 + i = i + 1 := by omega
      rwa [harith] at hrec
  refine ⟨?_, hkey, ?_⟩
  · intro h
    simp [run_reminder_cycle, h]
  · intro m hm
    by_contra hgt
    push_neg at hgt
    have hfalse := hkey m hgt
    rw [hm] at hfalse
    simp at hfalse

/-- Witness for `fresh_check_before_alert`: with an empty store at load 0
and a complete store from load 1 on, no alert round is ever performed. -/
theorem fresh_check_before_alert_witness :
    countAlerts (run_reminder_cycle (some morning_medicines) "morning" "2026-10-12"
      (fun k => if k = 0 then [] else complete_demo_store) (fun _ => false)).1 ≤ 0 :=
  (fresh_check_before_alert morning_medicines "morning" "2026-10-12"
    (fun k => if k = 0 then [] else complete_demo_store) (fun _ => false)).2.2 0 rfl

/-- C9, counterexample: for the unrecognised slot key "evening" the
constructor indeed leaves the medicine list undefined, but on the usual
first-run state (no log entry for today) the very first completion check
does NOT fail: Python's `and` short-circuits before `self.medicines` is
read, the check returns false, and the run proceeds into the first alert
round, where building the desktop-notification message is what hits the
missing attribute. -/
theorem unknown_slot_cex :
    init_medicines "evening" = none
    ∧ already_taken_today none "evening" "2026-10-12" [] = Except.ok false
    ∧ run_reminder_cycle (init_medicines "evening") "evening" "2026-10-12"
        (fun _ => []) (fun _ => false)
      = ([Event.check false, Event.check false],
         Outcome.attrError "show_desktop_notification") :=
  ⟨by simp [init_medicines], rfl, by rfl⟩

/-- C9, amended: for every slot key other than "morning"/"afternoon" the
constructor defines neither the medicine list nor the reminder title; on a
store with no entry for (today, slot) both completion checks short-circuit
to false without touching the missing attribute, and the run instead fails
with the missing-attribute error while building the first desktop
notification — before any alert is delivered and before any GUI round; only
when the log already holds an entry for (today, slot) does the completion
check itself hit the missing attribute. -/
theorem unknown_slot_amended (s today : String) (resp : Nat → Bool)
    (h1 : s ≠ "morning") (h2 : s ≠ "afternoon") :
    init_medicines s = none
    ∧ init_reminder_title s = none
    ∧ run_reminder_cycle (init_medicines s) s today (fun _ => []) resp
      = ([Event.check false, Event.check false],
         Outcome.attrError "show_desktop_notification")
    ∧ (∀ log day entry, lookupA log today = some day → lookupA day s = some entry →
        already_taken_today none s today log = Except.error ()) := by
  have hm : init_medicines s = none := by simp [init_medicines, h1, h2]
  refine ⟨hm, by simp [init_reminder_title, h1, h2], ?_, ?_⟩
  · rw [hm]
    rfl
  · intro log day entry hd hs
    simp [already_taken_today, hd, hs]

/-- Witness for `unknown_slot_amended` at the concrete slot key "evening". -/
theorem unknown_slot_amended_witness :
    init_medicines "evening" = none
    ∧ run_reminder_cycle (init_medicines "evening") "evening" "2026-10-12"
        (fun _ => []) (fun _ => false)
      = ([Event.check false, Event.check false],
         Outcome.attrError "show_desktop_notification") := by
  have h := unknown_slot_amended "evening" "2026-10-12" (fun _ => false)
    (by simp) (by simp)
  exact ⟨h.1, h.2.2.1⟩
